import Mathlib

/-!
Shallow embedding of the ResNet architecture-construction code in
`models/resnet/resnet.hpp` and `models/resnet/resnet_impl.hpp`.

The C++ code builds a layer graph (an mlpack `FFN`) from a `NetworkConfig`
(depth selector given as the `ResNetVersion` template parameter, input shape,
class count, `includeTop`, `preTrained`).  We model layer descriptors as an
inductive type, the spatial bookkeeping (`inputWidth`/`inputHeight` members)
as an explicit state threaded through each builder, and the constructor as a
pure function returning `Except` (the `Log::Fatal` on an unsupported version
throws, so nothing is built in that case).  Machine integers (`size_t`) are
modelled as `Nat` with explicit reduction modulo 2^64 where C++ unsigned
arithmetic can wrap.
-/

namespace ResNetModel

/-- 2^64, the modulus of `size_t` arithmetic. -/
def twoPow64 : Nat := 18446744073709551616

/-- Value computed by `ConvOutSize` when the stride is nonzero:
`std::floor(size + 2 * padding - k) / s + 1` where `size + 2 * padding - k`
is evaluated in `size_t` arithmetic (wrapping modulo 2^64) and the final
double division truncates, i.e. floor division. -/
def convOutSizeVal (size k s padding : Nat) : Nat :=
  ((size + 2 * padding) % twoPow64 + (twoPow64 - k % twoPow64)) % twoPow64 / s + 1

/-- `ResNet::ConvOutSize(size, k, s, padding)`.  The body divides by `s`
with no guard; a zero stride divides by zero (the converted result is not a
valid `size_t`), modelled as `none`. -/
def ConvOutSize (size k s padding : Nat) : Option Nat :=
  if s = 0 then none else some (convOutSizeVal size k s padding)

theorem ConvOutSize_eq_val (size k s padding : Nat) (hs : s ≠ 0) :
    ConvOutSize size k s padding = some (convOutSizeVal size k s padding) := by
  simp [ConvOutSize, hs]

/-- The spec formula for `ConvOutSize`, read over the integers:
`floor((size + 2*padding - kernel) / stride) + 1`. -/
def specConvOutSize (size k s padding : Nat) : Int :=
  ((size : Int) + 2 * (padding : Int) - (k : Int)).fdiv (s : Int) + 1

/-- `basicBlockExpansion` member initializer. -/
def basicBlockExpansion : Nat := 1

/-- `bottleNeckExpansion` member initializer. -/
def bottleNeckExpansion : Nat := 4

/-- The per-version block-count / builder-block table set at the top of the
tuple constructor (`resnet_impl.hpp`); `none` models the `Log::Fatal` branch
for an unsupported version. -/
def resolveConfig (v : Nat) : Option (List Nat × String) :=
  if v = 18 then some ([2, 2, 2, 2], "basicblock")
  else if v = 34 then some ([3, 4, 6, 3], "basicblock")
  else if v = 50 then some ([3, 4, 6, 3], "bottleneck")
  else if v = 101 then some ([3, 4, 23, 3], "bottleneck")
  else if v = 152 then some ([3, 8, 36, 3], "bottleneck")
  else none

/-- The `Log::Fatal` message for an unsupported version. -/
def incorrectVersionMsg : String :=
  "Incorrect ResNet version. Possible Values are: 18, 34, 50, 101 and 152"

/-- Descriptor of a layer added to the mlpack `FFN` / `Sequential` /
`AddMerge` containers.  `Sequential` and `AddMerge` carry their children in
order of the `Add` calls; `AddMerge` sums the outputs of its children. -/
inductive Layer where
  | Convolution (inSize outSize kW kH sW sH padW padH inputWidth inputHeight : Nat)
  | BatchNorm (size : Nat)
  | ReLU
  | Padding (wLeft wRight hTop hBottom : Nat)
  | MaxPooling (kW kH sW sH : Nat)
  | IdentityLayer
  | AdaptiveMeanPooling (w h : Nat)
  | Linear (inSize outSize : Nat)
  | Sequential (children : List Layer)
  | AddMerge (children : List Layer)
  deriving Repr

/-- Spatial bookkeeping: the `inputWidth` / `inputHeight` members that every
builder reads and updates. -/
abbrev SpatialState := Nat × Nat

/-- `ResNet::ConvolutionBlock3x3`: adds one convolution built from the
current spatial state and updates the state via `ConvOutSize`.  All call
sites pass a nonzero stride, where `ConvOutSize` returns
`some (convOutSizeVal …)` (`ConvOutSize_eq_val`). -/
def ConvolutionBlock3x3 (st : SpatialState)
    (inSize outSize kernelWidth kernelHeight strideWidth strideHeight padW padH : Nat) :
    Layer × SpatialState :=
  (Layer.Convolution inSize outSize kernelWidth kernelHeight strideWidth strideHeight
      padW padH st.1 st.2,
   (convOutSizeVal st.1 kernelWidth strideWidth padW,
    convOutSizeVal st.2 kernelHeight strideHeight padH))

/-- `ResNet::ConvolutionBlock1x1` (same body as the 3x3 builder; only its
defaults at call sites differ). -/
def ConvolutionBlock1x1 (st : SpatialState)
    (inSize outSize kernelWidth kernelHeight strideWidth strideHeight padW padH : Nat) :
    Layer × SpatialState :=
  (Layer.Convolution inSize outSize kernelWidth kernelHeight strideWidth strideHeight
      padW padH st.1 st.2,
   (convOutSizeVal st.1 kernelWidth strideWidth padW,
    convOutSizeVal st.2 kernelHeight strideHeight padH))

/-- `ResNet::DownSample`: appends a 1x1 projection convolution and a batch
norm as two further children of the block's `AddMerge`. -/
def DownSample (st : SpatialState) (inSize outSize : Nat) :
    (Layer × Layer) × SpatialState :=
  let cs := ConvolutionBlock1x1 st inSize outSize 1 1 1 1 0 0
  ((cs.1, Layer.BatchNorm outSize), cs.2)

/-- `ResNet::BasicBlock`: builds `Sequential [AddMerge [mainPath, shortcut…], ReLU]`
and appends it to the network; returns the block and the updated spatial
state.  The main path is conv(kernelWidth×kernelHeight) → BN → ReLU →
conv(3×3) → BN; the shortcut is the `DownSample` pair when `downSample` is
true and `IdentityLayer` otherwise. -/
def BasicBlock (st : SpatialState) (inSize outSize : Nat) (downSample : Bool)
    (kernelWidth kernelHeight : Nat) : Layer × SpatialState :=
  let c1 := ConvolutionBlock3x3 st inSize outSize kernelWidth kernelHeight 1 1 1 1
  let c2 := ConvolutionBlock3x3 c1.2 outSize outSize 3 3 1 1 1 1
  let seqBlock := Layer.Sequential
    [c1.1, Layer.BatchNorm outSize, Layer.ReLU, c2.1, Layer.BatchNorm outSize]
  if downSample then
    let ds := DownSample c2.2 inSize outSize
    (Layer.Sequential [Layer.AddMerge [seqBlock, ds.1.1, ds.1.2], Layer.ReLU], ds.2)
  else
    (Layer.Sequential [Layer.AddMerge [seqBlock, Layer.IdentityLayer], Layer.ReLU], c2.2)

/-- `ResNet::BottleNeck` has an empty body: it appends nothing and leaves the
spatial state unchanged. -/
def BottleNeck (st : SpatialState) : List Layer × SpatialState := ([], st)

/-- The downsample condition evaluated at the head of each `MakeLayer`
branch: `stride != 1 || inSize != inSize * expansion`. -/
def needsDownsampleCode (inSize expansion stride : Nat) : Bool :=
  stride != 1 || inSize != inSize * expansion

/-- Modelled from the spec (§4.5), for comparison with `needsDownsampleCode`:
a projection shortcut is needed when the stride is not 1 or the incoming
channel count differs from the block's target output channel count
`outSize * expansion`. -/
def needsDownsampleSpec (inSize outSize expansion stride : Nat) : Bool :=
  stride != 1 || inSize != outSize * expansion

/-- Number of iterations of `for (size_t i = 1; i != numBlocks; ++i)`:
`numBlocks - 1` for `1 ≤ numBlocks < 2^64`, and `2^64 - 1` for
`numBlocks = 0` (the `size_t` counter wraps before reaching 0 again). -/
def loopIterations (numBlocks : Nat) : Nat :=
  (numBlocks % twoPow64 + (twoPow64 - 1)) % twoPow64

/-- The remaining-blocks loop of `MakeLayer`'s basic-block branch: each
iteration builds `BasicBlock(inSize, outSize)` with the default
`downSample = false` and default 1x1 kernel arguments. -/
def repeatBasicBlocks : SpatialState → Nat → Nat → Nat → List Layer × SpatialState
  | st, _, _, 0 => ([], st)
  | st, inSize, outSize, n + 1 =>
    let b := BasicBlock st inSize outSize false 1 1
    let rest := repeatBasicBlocks b.2 inSize outSize n
    (b.1 :: rest.1, rest.2)

/-- `ResNet::MakeLayer(block, outSize, numBlocks, stride)`: returns the list
of residual blocks appended to the network and the final spatial state.
`inSize` is initialised to 64.  The basic-block branch computes the
downsample flag, builds the first block with it, then builds the remaining
blocks with the defaults; the bottleneck branch computes the flag too but
`BottleNeck` appends nothing. -/
def MakeLayer (st : SpatialState) (block : String) (outSize numBlocks stride : Nat) :
    List Layer × SpatialState :=
  let inSize := 64
  if block = "basicblock" then
    let downSample := needsDownsampleCode inSize basicBlockExpansion stride
    let b1 := BasicBlock st inSize outSize downSample 1 1
    let inSize1 := inSize * basicBlockExpansion
    let rest := repeatBasicBlocks b1.2 inSize1 outSize (loopIterations numBlocks)
    (b1.1 :: rest.1, rest.2)
  else if block = "bottleneck" then
    let b1 := BottleNeck st
    let rest := BottleNeck b1.2
    (b1.1 ++ rest.1, rest.2)
  else ([], st)

/-- The constructor parameters: the `ResNetVersion` template argument, the
input shape tuple, `numClasses`, and the `includeTop` / `preTrained`
flags. -/
structure NetworkConfig where
  resNetVersion : Nat
  inputChannel : Nat
  inputWidth : Nat
  inputHeight : Nat
  numClasses : Nat
  includeTop : Bool
  preTrained : Bool
  deriving DecidableEq, Repr

/-- The five stem layers added by the tuple constructor, in order of the
`resNet.Add` calls:  7x7 stride-2 pad-3 convolution from 3 to 64 channels,
batch norm, ReLU, symmetric padding 1 on each side, 3x3 stride-2 max
pooling. -/
def stemLayers (w h : Nat) : List Layer :=
  [Layer.Convolution 3 64 7 7 2 2 3 3 w h,
   Layer.BatchNorm 64,
   Layer.ReLU,
   Layer.Padding 1 1 1 1,
   Layer.MaxPooling 3 3 2 2]

/-- Tracked width (resp. height) after the stem: updated after the stem
convolution (`ConvOutSize(·,7,2,3)`), after the padding layer (`+ 2`), and
after the max pooling (`ConvOutSize(·,3,2,0)`). -/
def stemSpatial (w : Nat) : Nat :=
  convOutSizeVal (convOutSizeVal w 7 2 3 + 2) 3 2 0

/-- The block added after the stem by the present constructor body (the
`MakeLayer` stage calls are commented out): a `Sequential` of two 64→64
3x3 stride-1 pad-1 convolutions, then an `IdentityLayer`; neither `Add` is
followed by a spatial-state update. -/
def placeholderLayers (w h : Nat) : List Layer :=
  [Layer.Sequential
     [Layer.Convolution 64 64 3 3 1 1 1 1 w h,
      Layer.Convolution 64 64 3 3 1 1 1 1 w h],
   Layer.IdentityLayer]

/-- The tuple constructor `ResNet::ResNet(inputShape, includeTop, preTrained,
numClasses)`: resolves the version table (`Log::Fatal`, modelled as
`Except.error`, for an unsupported version, before any layer is added), then
adds the stem followed by the placeholder block.  The stage calls and the
`includeTop` classification head are commented out in the source, so neither
`includeTop` nor `preTrained` is read.  Returns the ordered layer list
together with the final tracked spatial state. -/
def buildResNet (cfg : NetworkConfig) : Except String (List Layer × SpatialState) :=
  match resolveConfig cfg.resNetVersion with
  | none => Except.error incorrectVersionMsg
  | some _ =>
    let w0 := cfg.inputWidth
    let h0 := cfg.inputHeight
    let w1 := convOutSizeVal w0 7 2 3
    let h1 := convOutSizeVal h0 7 2 3
    let w2 := w1 + 2
    let h2 := h1 + 2
    let w3 := convOutSizeVal w2 3 2 0
    let h3 := convOutSizeVal h2 3 2 0
    Except.ok (stemLayers w0 h0 ++ placeholderLayers w3 h3, (w3, h3))

/-- True exactly for a residual block whose `AddMerge` holds the main path
and an `IdentityLayer` shortcut. -/
def shortcutIsIdentity : Layer → Bool
  | Layer.Sequential [Layer.AddMerge [_, Layer.IdentityLayer], Layer.ReLU] => true
  | _ => false

/-- True exactly for a classification-head layer (adaptive pooling or
linear). -/
def isHeadLayer : Layer → Bool
  | Layer.AdaptiveMeanPooling _ _ => true
  | Layer.Linear _ _ => true
  | _ => false

/-- `convOutSizeVal` without the wraparound: when the kernel does not
exceed the padded input and no `size_t` overflow occurs, the value is the
textbook `floor((size + 2*padding - k) / s) + 1`. -/
theorem convOutSizeVal_no_wrap (size k s padding : Nat)
    (hk : k ≤ size + 2 * padding) (hw : size + 2 * padding < twoPow64) :
    convOutSizeVal size k s padding = (size + 2 * padding - k) / s + 1 := by
  unfold convOutSizeVal
  have h1 : (size + 2 * padding) % twoPow64 = size + 2 * padding := Nat.mod_eq_of_lt hw
  have h2 : k % twoPow64 = k := Nat.mod_eq_of_lt (lt_of_le_of_lt hk hw)
  have h3 : size + 2 * padding + (twoPow64 - k) = size + 2 * padding - k + twoPow64 := by
    have : k ≤ twoPow64 := le_of_lt (lt_of_le_of_lt hk hw)
    omega
  rw [h1, h2, h3, Nat.add_mod_right, Nat.mod_eq_of_lt (by omega)]

end ResNetModel

namespace ResNetModel

/-- C1: for every supported depth selector the constructor's version table
yields exactly the block counts and builder-block kind of the §4.1 table
(`"basicblock"` is the Basic kind, `"bottleneck"` the Bottleneck kind), and
the expansion factors are 1 for Basic and 4 for Bottleneck. -/
theorem claim_C1_config_table :
    resolveConfig 18 = some ([2, 2, 2, 2], "basicblock") ∧
    resolveConfig 34 = some ([3, 4, 6, 3], "basicblock") ∧
    resolveConfig 50 = some ([3, 4, 6, 3], "bottleneck") ∧
    resolveConfig 101 = some ([3, 4, 23, 3], "bottleneck") ∧
    resolveConfig 152 = some ([3, 8, 36, 3], "bottleneck") ∧
    basicBlockExpansion = 1 ∧ bottleNeckExpansion = 4 :=
  ⟨rfl, rfl, rfl, rfl, rfl, rfl, rfl⟩

/-- C2: evaluation at the failing input.  For `MakeLayer("basicblock",
outSize = 128, numBlocks = 2, stride = 1)` the incoming channel count is the
hard-coded 64, so the spec condition (incoming ≠ outSize·expansion, i.e.
64 ≠ 128·1) demands a projection shortcut on the first block; but the code's
condition compares `inSize` with `inSize * expansion` (64 with 64·1), stays
false, and both built blocks get an identity shortcut. -/
theorem claim_C2_code_bug :
    needsDownsampleSpec 64 128 basicBlockExpansion 1 = true ∧
    needsDownsampleCode 64 basicBlockExpansion 1 = false ∧
    (MakeLayer (56, 56) "basicblock" 128 2 1).1.map shortcutIsIdentity = [true, true] :=
  ⟨rfl, rfl, rfl⟩

/-- C3 counterexample: the claim quantifies over all arguments, but for
`size + 2*padding < kernel` the `size_t` subtraction wraps, so
`ConvOutSize(1, 5, 1, 0)` returns `2^64 - 3` while the spec formula
`floor((1 + 0 - 5)/1) + 1` is `-3`. -/
theorem claim_C3_counterexample :
    ConvOutSize 1 5 1 0 = some (twoPow64 - 3) ∧
    specConvOutSize 1 5 1 0 = -3 ∧
    (ConvOutSize 1 5 1 0).map (fun n => (n : Int)) ≠ some (specConvOutSize 1 5 1 0) := by
  refine ⟨rfl, rfl, ?_⟩
  decide

/-- C3 amended: for a nonzero stride and a kernel not exceeding the padded
input (no `size_t` wraparound), `ConvOutSize(size, k, s, padding)` equals
`floor((size + 2*padding - k) / s) + 1`; in particular for stride 1 it is
`size + 2*padding - k + 1`, and `ConvOutSize(224, 7, 2, 3) = 112`. -/
theorem claim_C3_amended (size k s padding : Nat) (hs : s ≠ 0)
    (hk : k ≤ size + 2 * padding) (hw : size + 2 * padding < twoPow64) :
    ConvOutSize size k s padding = some ((size + 2 * padding - k) / s + 1) ∧
    ConvOutSize size k 1 padding = some (size + 2 * padding - k + 1) ∧
    ConvOutSize 224 7 2 3 = some 112 := by
  refine ⟨?_, ?_, rfl⟩
  · rw [ConvOutSize_eq_val size k s padding hs, convOutSizeVal_no_wrap size k s padding hk hw]
  · rw [ConvOutSize_eq_val size k 1 padding one_ne_zero,
      convOutSizeVal_no_wrap size k 1 padding hk hw, Nat.div_one]

/-- C3 amended, witness at `(224, 7, 2, 3)`. -/
theorem claim_C3_amended_witness :
    ConvOutSize 224 7 2 3 = some ((224 + 2 * 3 - 7) / 2 + 1) ∧
    ConvOutSize 224 7 1 3 = some (224 + 2 * 3 - 7 + 1) ∧
    ConvOutSize 224 7 2 3 = some 112 :=
  claim_C3_amended 224 7 2 3 (by decide) (by decide) (by decide)

/-- C4: evaluation at the failing input.  For the valid configuration
(depth 18, input (3,224,224), 1000 classes, includeTop) the constructor does
not append four residual stages after the stem: the four `MakeLayer` calls
are commented out, and the only layers after the stem are the placeholder
`Sequential` of two 64→64 convolutions and an `IdentityLayer`. -/
theorem claim_C4_code_bug :
    buildResNet ⟨18, 3, 224, 224, 1000, true, false⟩ =
      Except.ok (stemLayers 224 224 ++ placeholderLayers 56 56, (56, 56)) ∧
    placeholderLayers 56 56 =
      [Layer.Sequential
         [Layer.Convolution 64 64 3 3 1 1 1 1 56 56,
          Layer.Convolution 64 64 3 3 1 1 1 1 56 56],
       Layer.IdentityLayer] :=
  ⟨rfl, rfl⟩

/-- C5: for every configuration with a supported version the constructor
appends exactly, in order, the 7x7 stride-2 pad-3 convolution (3→64
channels), batch norm, ReLU, the symmetric padding layer (adding 2 to width
and height) and the 3x3 stride-2 max pooling, before anything else; the
tracked spatial state is threaded through each of the three updating steps
(`stemSpatial`), and an input of 224 reaches the point after the stem at
spatial size 56. -/
theorem claim_C5_stem (cfg : NetworkConfig) (t : List Nat × String)
    (h : resolveConfig cfg.resNetVersion = some t) :
    buildResNet cfg =
      Except.ok (stemLayers cfg.inputWidth cfg.inputHeight ++
          placeholderLayers (stemSpatial cfg.inputWidth) (stemSpatial cfg.inputHeight),
        (stemSpatial cfg.inputWidth, stemSpatial cfg.inputHeight)) ∧
    stemSpatial cfg.inputWidth =
      convOutSizeVal (convOutSizeVal cfg.inputWidth 7 2 3 + 2) 3 2 0 ∧
    stemSpatial 224 = 56 := by
  refine ⟨?_, rfl, rfl⟩
  unfold buildResNet
  rw [h]
  rfl

/-- C5, witness at depth 18 with input (3,224,224). -/
theorem claim_C5_stem_witness :
    buildResNet ⟨18, 3, 224, 224, 1000, true, false⟩ =
      Except.ok (stemLayers 224 224 ++
          placeholderLayers (stemSpatial 224) (stemSpatial 224),
        (stemSpatial 224, stemSpatial 224)) ∧
    stemSpatial 224 = convOutSizeVal (convOutSizeVal 224 7 2 3 + 2) 3 2 0 ∧
    stemSpatial 224 = 56 :=
  claim_C5_stem ⟨18, 3, 224, 224, 1000, true, false⟩ ([2, 2, 2, 2], "basicblock") rfl

/-- C6: evaluation at the failing input.  With depth 50 and
`includeTop = true` the constructor appends neither the adaptive 1x1 mean
pooling nor the 2048→numClasses linear layer: the whole head is commented
out, so the built graph ends with the placeholder block and contains no
head layer at all. -/
theorem claim_C6_code_bug :
    buildResNet ⟨50, 3, 224, 224, 1000, true, false⟩ =
      Except.ok (stemLayers 224 224 ++ placeholderLayers 56 56, (56, 56)) ∧
    (stemLayers 224 224 ++ placeholderLayers 56 56).all
      (fun l => !isHeadLayer l) = true :=
  ⟨rfl, rfl⟩

/-- C7: for every configuration whose version is not one of 18, 34, 50, 101,
152, the constructor stops with the fatal configuration error (thrown before
any `resNet.Add` call), and no layer list is ever produced. -/
theorem claim_C7_fail_fast (cfg : NetworkConfig)
    (h : cfg.resNetVersion ∉ ([18, 34, 50, 101, 152] : List Nat)) :
    buildResNet cfg = Except.error incorrectVersionMsg ∧
    ∀ layers st, buildResNet cfg ≠ Except.ok (layers, st) := by
  simp only [List.mem_cons, List.not_mem_nil, or_false, not_or] at h
  obtain ⟨h18, h34, h50, h101, h152⟩ := h
  have hr : resolveConfig cfg.resNetVersion = none := by
    unfold resolveConfig
    rw [if_neg h18, if_neg h34, if_neg h50, if_neg h101, if_neg h152]
  have he : buildResNet cfg = Except.error incorrectVersionMsg := by
    unfold buildResNet
    rw [hr]
  refine ⟨he, fun layers st hc => ?_⟩
  rw [he] at hc
  exact Except.noConfusion hc

/-- C7, witness at version 200. -/
theorem claim_C7_fail_fast_witness :
    buildResNet ⟨200, 3, 224, 224, 1000, true, false⟩ =
      Except.error incorrectVersionMsg ∧
    ∀ layers st, buildResNet ⟨200, 3, 224, 224, 1000, true, false⟩ ≠
      Except.ok (layers, st) :=
  claim_C7_fail_fast ⟨200, 3, 224, 224, 1000, true, false⟩ (by decide)

/-- C8: construction is deterministic — two runs of the constructor on equal
configurations produce identical layer graphs and final spatial states (the
build is a pure function of the `NetworkConfig`; nothing else flows into the
layers it creates). -/
theorem claim_C8_deterministic (cfg1 cfg2 : NetworkConfig) (h : cfg1 = cfg2) :
    buildResNet cfg1 = buildResNet cfg2 :=
  congrArg buildResNet h

/-- C8, witness: two builds from the same depth-18 configuration coincide. -/
theorem claim_C8_deterministic_witness :
    buildResNet ⟨18, 3, 224, 224, 1000, true, false⟩ =
      buildResNet ⟨18, 3, 224, 224, 1000, true, false⟩ :=
  claim_C8_deterministic ⟨18, 3, 224, 224, 1000, true, false⟩
    ⟨18, 3, 224, 224, 1000, true, false⟩ rfl

/-- C9: the constructor body never reads `includeTop` or `preTrained` (the
head that would consume `includeTop` is commented out), so two builds that
differ only in those flags produce the same layer graph and spatial
state. -/
theorem claim_C9_flags_unused (v ic w h nc : Nat) (it1 pt1 it2 pt2 : Bool) :
    buildResNet ⟨v, ic, w, h, nc, it1, pt1⟩ = buildResNet ⟨v, ic, w, h, nc, it2, pt2⟩ :=
  rfl

/-- C10: `ConvOutSize` does unguarded `size_t` arithmetic.  When
`size + 2*padding < kernel` the subtraction wraps modulo 2^64 and (at stride
1) the function returns `2^64 - (kernel - size - 2*padding) + 1`, a value
above 2^63, instead of failing — no check rejects a kernel larger than the
padded input; and a stride of 0 hits the unguarded division by zero. -/
theorem claim_C10_unsigned_wrap (size k padding : Nat)
    (h : size + 2 * padding < k) (hk : k ≤ 2 ^ 63) :
    ConvOutSize size k 1 padding =
      some (twoPow64 - (k - (size + 2 * padding)) + 1) ∧
    2 ^ 63 < twoPow64 - (k - (size + 2 * padding)) + 1 ∧
    (∀ size2 k2 padding2, ConvOutSize size2 k2 0 padding2 = none) := by
  have hp : (2 : Nat) ^ 63 = 9223372036854775808 := by norm_num
  have hw : k < twoPow64 := by
    unfold twoPow64
    omega
  refine ⟨?_, ?_, fun size2 k2 padding2 => by simp [ConvOutSize]⟩
  · rw [ConvOutSize_eq_val size k 1 padding one_ne_zero]
    refine congrArg some ?_
    unfold convOutSizeVal twoPow64
    unfold twoPow64 at hw
    omega
  · unfold twoPow64
    omega

/-- C10, witness at `(size, k, padding) = (1, 5, 0)`. -/
theorem claim_C10_unsigned_wrap_witness :
    ConvOutSize 1 5 1 0 = some (twoPow64 - (5 - (1 + 2 * 0)) + 1) ∧
    2 ^ 63 < twoPow64 - (5 - (1 + 2 * 0)) + 1 ∧
    (∀ size2 k2 padding2, ConvOutSize size2 k2 0 padding2 = none) :=
  claim_C10_unsigned_wrap 1 5 0 (by decide) (by norm_num)

end ResNetModel
